import Mathlib

/-!
# Verification of the P&L / tax core of `src/app.py`

Shallow embedding of the computation core of the application: the
sales-summary parser (`parse_sales_summary`), the expense-ledger parser
(`parse_expenses`), the P&L builder (`build_report_and_tables`) and the
Hanover tax estimator (`calc_hanover_tax_text`).

Modelling conventions:
* Python floats are modelled as exact rationals (`ℚ`); float literals of the
  source become the equal decimal rationals.
* A pandas cell is `Cell`: a string, a number, or a missing value (NaN).
  Raw tables are `List (List Cell)` in row order.
* The tolerant `try`/`except` row parses of the source become
  `Option`-valued functions; `none` is the dropped-row case.
* Library calls (`pd.to_datetime`, `float(...)` on strings) are modelled by
  concrete executable parsers covering the finite decimal / `Y-M-D` forms;
  only parse success or failure feeds the properties proved here.
-/

/-- A raw spreadsheet cell as pandas hands it to the core: a string, a
number, or a missing value (NaN). -/
inductive Cell
  | na
  | str (s : String)
  | num (q : ℚ)
deriving DecidableEq

/-- Python `str(cell)`: pandas stringifies a missing value to `"nan"`.
The textual form of a numeric cell is abstracted by `toString` on `ℚ`;
the parsers compare cell strings only with the literals `"Total"`,
`"Total Expenses"`, `"Vendor"`, `"Report"`, `"nan"`, none of which the
string of a numeral can equal or contain. -/
def cellStr : Cell → String
  | .na => "nan"
  | .str s => s
  | .num q => toString q

/-- Source `pd.notna`. -/
def Cell.notna : Cell → Bool
  | .na => false
  | _ => true

/-- Leading and trailing whitespace removal on the character list of a
string (`str.strip()` / `String.trim`, reimplemented structurally so that
it evaluates inside the kernel). -/
def trimChars (l : List Char) : List Char :=
  ((l.dropWhile Char.isWhitespace).reverse.dropWhile Char.isWhitespace).reverse

/-- Source `s.strip()`. -/
def strTrim (s : String) : String := ⟨trimChars s.data⟩

/-- The sequence `pat` occurs inside `l`. -/
def containsSeq (pat : List Char) : List Char → Bool
  | [] => pat.isEmpty
  | c :: rest => pat.isPrefixOf (c :: rest) || containsSeq pat rest

/-- Python substring test `pat in s`. -/
def strContains (s pat : String) : Bool :=
  containsSeq pat.data s.data

/-- Split a character list at every occurrence of `c` (the groups between
separators, as `String.splitOn` for a one-character separator). -/
def splitChar (c : Char) : List Char → List (List Char)
  | [] => [[]]
  | x :: xs =>
    if x = c then [] :: splitChar c xs
    else
      match splitChar c xs with
      | g :: gs => (x :: g) :: gs
      | [] => [[x]]

/-- The value of a non-empty all-digit character list. -/
def parseDigits (l : List Char) : Option Nat :=
  if l ≠ [] ∧ l.all Char.isDigit then
    some (l.foldl (fun n c => 10 * n + (c.toNat - 48)) 0)
  else none

/-- Python `float(s)` on finite decimal numerals: surrounding whitespace,
an optional sign, then integer and/or fractional digits.  Exponent forms,
`"inf"`/`"nan"` and underscore separators are outside the model and fail. -/
def parseFloat? (s : String) : Option ℚ :=
  let t : List Char := trimChars s.data
  let sign : ℚ := match t with
    | '-' :: _ => -1
    | _ => 1
  let body : List Char := match t with
    | '-' :: rest => rest
    | '+' :: rest => rest
    | l => l
  match splitChar '.' body with
  | [ip] => (parseDigits ip).map (fun n => sign * (n : ℚ))
  | [ip, fp] =>
    if ip = [] ∧ fp = [] then none
    else
      match (if ip = [] then some 0 else parseDigits ip),
            (if fp = [] then some 0 else parseDigits fp) with
      | some a, some b => some (sign * ((a : ℚ) + (b : ℚ) / (10 : ℚ) ^ fp.length))
      | _, _ => none
  | _ => none

/-- Python `float(v)` on a cell value: numbers pass through, strings are
parsed as decimals (every call site is guarded by `pd.notna`). -/
def cellFloat? : Cell → Option ℚ
  | .num q => some q
  | .str s => parseFloat? s
  | .na => none

/-- Python dict assignment `d[k] = v` on an insertion-ordered association
list: overwrite the existing binding of `k` in place, else append. -/
def dictInsert (d : List (String × ℚ)) (k : String) (v : ℚ) :
    List (String × ℚ) :=
  match d with
  | [] => [(k, v)]
  | p :: rest => if p.1 = k then (k, v) :: rest else p :: dictInsert rest k v

/-- Dict lookup, `none` when the key is absent. -/
def dictFind? (d : List (String × ℚ)) (k : String) : Option ℚ :=
  (d.find? (fun p => p.1 = k)).map (·.2)

/-- Python `d.get(k, dflt)`. -/
def dictGet (d : List (String × ℚ)) (k : String) (dflt : ℚ) : ℚ :=
  (dictFind? d k).getD dflt

/-- The `(key, value)` pair a row of the sales table contributes, if any:
the key is the trimmed `str(row[0])`, skipped when empty or `"nan"`; the
value is `row[1]` when the row has a second cell, it is not NaN and it
parses as a float (`parse_sales_summary`, one loop iteration). -/
def salesRowKV (row : List Cell) : Option (String × ℚ) :=
  let k := strTrim (cellStr ((row.get? 0).getD .na))
  match row.get? 1 with
  | some v =>
    if k ≠ "" ∧ k ≠ "nan" ∧ v.notna then
      match cellFloat? v with
      | some q => some (k, q)
      | none => none
    else none
  | none => none

/-- The row loop of `parse_sales_summary`, carrying the dict built so far. -/
def salesGo (d : List (String × ℚ)) : List (List Cell) → List (String × ℚ)
  | [] => d
  | row :: rest =>
    match salesRowKV row with
    | some kv => salesGo (dictInsert d kv.1 kv.2) rest
    | none => salesGo d rest

/-- Source `parse_sales_summary`: fold the rows into a dict, skipping rows that do
not parse; a repeated key overwrites the earlier binding. -/
def parse_sales_summary (t : List (List Cell)) : List (String × ℚ) :=
  salesGo [] t

/-- The value contributed by the last row of `t` that successfully parses
with key `k` (the reference description of dict-assignment semantics). -/
def lastSaleValue : List (List Cell) → String → Option ℚ
  | [], _ => none
  | row :: rest, k =>
    match lastSaleValue rest k with
    | some q => some q
    | none =>
      match salesRowKV row with
      | some kv => if kv.1 = k then some kv.2 else none
      | none => none

/-- One parsed line of the expense ledger. -/
structure ExpenseRecord where
  Category : String
  Vendor : Cell
  Date : Nat
  Amount : ℚ
deriving DecidableEq

/-- Source `pd.to_datetime(c, errors="coerce")` composed with the `pd.notna`
test: `some` exactly when the date parses.  String dates are modelled in
`Y-M-D` numeral form (encoded `y*10000 + m*100 + d`); a numeric cell
coerces to a timestamp; NaN coerces to NaT, i.e. `none`. -/
def toDatetimeCoerce : Cell → Option Nat
  | .na => none
  | .num q => some q.num.natAbs
  | .str s =>
    match splitChar '-' (trimChars s.data) with
    | [y, m, d] =>
      match parseDigits y, parseDigits m, parseDigits d with
      | some yn, some mn, some dn =>
        if 1 ≤ mn ∧ mn ≤ 12 ∧ 1 ≤ dn ∧ dn ≤ 31 then
          some (yn * 10000 + mn * 100 + dn)
        else none
      | _, _, _ => none
    | _ => none

/-- Source `float(str(cell).replace(",", "").replace("$", ""))` for the amount
cell of an expense row (removing every `','`, then every `'$'`). -/
def parseAmount? (c : Cell) : Option ℚ :=
  parseFloat? ⟨((cellStr c).data.filter (fun ch => ch != ',')).filter (fun ch => ch != '$')⟩

/-- One attempt at reading a data row (the `try` body of `parse_expenses`):
cell 2 is the date, cell 3 the amount; a missing cell is the `IndexError`
case, an unparseable date the NaT case, an unparseable amount the
`ValueError` case of `float`.  Any failure yields `none`: the row is
dropped whole and no partial record exists. -/
def tryExpenseRow (cc : String) (row : List Cell) : Option ExpenseRecord :=
  match row.get? 2, row.get? 3 with
  | some c2, some c3 =>
    match parseAmount? c3 with
    | some amt =>
      match toDatetimeCoerce c2 with
      | some d => some ⟨cc, (row.get? 0).getD .na, d, amt⟩
      | none => none
    | none => none
  | _, _ => none

/-- The trimmed string of a row's first cell (`str(row.iloc[0]).strip()`). -/
def rowC0 (row : List Cell) : String :=
  strTrim (cellStr ((row.get? 0).getD .na))

/-- Summary rows skipped outright:
`c0 == "Total" or "Total Expenses" in c0`. -/
def isTotalRow (c0 : String) : Bool :=
  c0 == "Total" || strContains c0 "Total Expenses"

/-- Candidate header-or-data rows:
`c0 and c0 != "nan" and c0 != "Vendor" and "Report" not in c0`. -/
def isCandidate (c0 : String) : Bool :=
  c0 != "" && c0 != "nan" && c0 != "Vendor" && !strContains c0 "Report"

/-- The header lookahead of `parse_expenses`: the first cell of the
following row stringifies to exactly `"Vendor"` (no trim in the source). -/
def nextIsVendor : List (List Cell) → Bool
  | [] => false
  | next :: _ => cellStr ((next.get? 0).getD .na) == "Vendor"

/-- The row loop of `parse_expenses`, recursing over the remaining rows
with the carried `curr_cat` state. -/
def parseExpensesGo (cat : Option String) : List (List Cell) → List ExpenseRecord
  | [] => []
  | row :: rest =>
    let c0 := rowC0 row
    if isTotalRow c0 then parseExpensesGo cat rest
    else if isCandidate c0 then
      if nextIsVendor rest then parseExpensesGo (some c0) rest
      else
        match cat with
        | some cc =>
          match tryExpenseRow cc row with
          | some r => r :: parseExpensesGo cat rest
          | none => parseExpensesGo cat rest
        | none => parseExpensesGo cat rest
    else parseExpensesGo cat rest

/-- Source `parse_expenses`: run the row loop with no category established. -/
def parse_expenses (t : List (List Cell)) : List ExpenseRecord :=
  parseExpensesGo none t

/-- The category headers of an expense table: candidate rows whose
following row's first cell is `"Vendor"`, in input order. -/
def headerCats : List (List Cell) → List String
  | [] => []
  | row :: rest =>
    let c0 := rowC0 row
    if !isTotalRow c0 && isCandidate c0 && nextIsVendor rest then
      c0 :: headerCats rest
    else headerCats rest

/-- A cell of the built P&L table: the empty string of a header/separator
row, or a number. -/
inductive PnlCell
  | blank
  | num (q : ℚ)
deriving DecidableEq

/-- Python truthiness of a table cell: the empty string and `0.0` are
falsy, every other number is truthy. -/
def PnlCell.truthy : PnlCell → Bool
  | .blank => false
  | .num q => q ≠ 0

/-- The numeric value of a table cell (`0` for the blank cell); used only
to state ordering properties over rows. -/
def PnlCell.qval : PnlCell → ℚ
  | .blank => 0
  | .num q => q

/-- One `[label, amount, percent]` triple of `last_pnl_data`. -/
structure PnlRow where
  label : String
  amount : PnlCell
  percent : PnlCell
deriving DecidableEq

/-- Source `sales_summary.get("Net Sales", 0.0)`. -/
def net_sales (s : List (String × ℚ)) : ℚ := dictGet s "Net Sales" 0

/-- Source `sales_summary.get("Gratuity", 0.0)`. -/
def gratuity (s : List (String × ℚ)) : ℚ := dictGet s "Gratuity" 0

/-- Source `sales_summary.get("Tax", 0.0)`. -/
def tax_collected (s : List (String × ℚ)) : ℚ := dictGet s "Tax" 0

/-- Source `sales_summary.get("Prepayments For Future Sales", 0.0)`. -/
def prepayments (s : List (String × ℚ)) : ℚ :=
  dictGet s "Prepayments For Future Sales" 0

/-- Source `total_rev = net_sales + tax_collected + prepayments`, plus `gratuity`
when `include_tips`. -/
def total_rev (s : List (String × ℚ)) (include_tips : Bool) : ℚ :=
  net_sales s + tax_collected s + prepayments s
    + (if include_tips then gratuity s else 0)

/-- The hardcoded COGS category set. -/
def cogs_cats : List String := ["Back Bar", "Inventory"]

/-- Source `expenses_df[expenses_df["Category"].isin(cogs_cats)]`. -/
def cogs_df (e : List ExpenseRecord) : List ExpenseRecord :=
  e.filter (fun r => cogs_cats.contains r.Category)

/-- Source `expenses_df[~expenses_df["Category"].isin(cogs_cats)]`. -/
def opex_df (e : List ExpenseRecord) : List ExpenseRecord :=
  e.filter (fun r => !cogs_cats.contains r.Category)

/-- Source `abs(sales_summary.get("Payment Processing Fees Paid By Business", 0.0))`. -/
def processing_fees (s : List (String × ℚ)) : ℚ :=
  |dictGet s "Payment Processing Fees Paid By Business" 0|

/-- Source `sales_tax_expense = tax_collected`. -/
def sales_tax_expense (s : List (String × ℚ)) : ℚ := tax_collected s

/-- Source `df["Amount"].sum()` over a record list (pandas sums an empty frame
to `0.0`, as does `List.sum`). -/
def sumAmounts (l : List ExpenseRecord) : ℚ := (l.map (·.Amount)).sum

/-- Source `total_cogs`. -/
def total_cogs (e : List ExpenseRecord) : ℚ := sumAmounts (cogs_df e)

/-- Source `gross_margin = total_rev - total_cogs`. -/
def gross_margin (s : List (String × ℚ)) (e : List ExpenseRecord)
    (include_tips : Bool) : ℚ :=
  total_rev s include_tips - total_cogs e

/-- Source `total_opex = opex_df["Amount"].sum() + processing_fees + sales_tax_expense`. -/
def total_opex (s : List (String × ℚ)) (e : List ExpenseRecord) : ℚ :=
  sumAmounts (opex_df e) + processing_fees s + sales_tax_expense s

/-- Source `net_profit = gross_margin - total_opex`. -/
def net_profit (s : List (String × ℚ)) (e : List ExpenseRecord)
    (include_tips : Bool) : ℚ :=
  gross_margin s e include_tips - total_opex s e

/-- The guarded percentage `(x / total) if total else 0` (Python truthiness:
`total` is falsy exactly when it is zero). -/
def pct (x total : ℚ) : ℚ := if total = 0 then 0 else x / total

/-- Source `opex_df.groupby("Category")["Amount"].sum()`: the distinct OPEX
categories (pandas sorts group keys ascending) paired with their summed
amounts. -/
def opexGroupSums (e : List ExpenseRecord) : List (String × ℚ) :=
  (List.insertionSort (fun a b => a ≤ b) ((opex_df e).map (·.Category)).dedup).map
    (fun c => (c, sumAmounts ((opex_df e).filter (fun r => r.Category == c))))

/-- Source `.sort_values(ascending=False)`: the grouped sums sorted by amount
descending. -/
def opexCatTotals (e : List ExpenseRecord) : List (String × ℚ) :=
  List.insertionSort (fun a b : String × ℚ => b.2 ≤ a.2) (opexGroupSums e)

/-- A per-category line `[f"  {cat}", amt, (amt / total_rev) if total_rev else 0]`. -/
def catRow (total : ℚ) (cat : String) (amt : ℚ) : PnlRow :=
  ⟨"  " ++ cat, .num amt, .num (pct amt total)⟩

/-- The COGS section lines: one per category of the fixed `cogs_cats`
order, emitted only when its summed amount is strictly positive. -/
def cogsCatRows (s : List (String × ℚ)) (e : List ExpenseRecord)
    (include_tips : Bool) : List PnlRow :=
  cogs_cats.flatMap (fun cat =>
    let amt := sumAmounts ((cogs_df e).filter (fun r => r.Category == cat))
    if amt > 0 then [catRow (total_rev s include_tips) cat amt] else [])

/-- The OPEX per-category lines, from the amount-descending totals. -/
def opexCatRows (s : List (String × ℚ)) (e : List ExpenseRecord)
    (include_tips : Bool) : List PnlRow :=
  (opexCatTotals e).map (fun p => catRow (total_rev s include_tips) p.1 p.2)

/-- Source `last_pnl_data`: the ordered P&L table of `build_report_and_tables`. -/
def buildPnlTable (s : List (String × ℚ)) (e : List ExpenseRecord)
    (include_tips : Bool) : List PnlRow :=
  let tr := total_rev s include_tips
  [⟨"REVENUE", .blank, .blank⟩,
   ⟨"  Net Sales", .num (net_sales s), .num (pct (net_sales s) tr)⟩,
   ⟨"  Tax Collected", .num (tax_collected s), .num (pct (tax_collected s) tr)⟩,
   ⟨"  Prepayments", .num (prepayments s), .num (pct (prepayments s) tr)⟩]
  ++ (if include_tips then
        [⟨"  Tips/Gratuity", .num (gratuity s), .num (pct (gratuity s) tr)⟩]
      else [])
  ++ [⟨"TOTAL REVENUE", .num tr, .num 1⟩,
      ⟨"", .blank, .blank⟩,
      ⟨"COGS", .blank, .blank⟩]
  ++ cogsCatRows s e include_tips
  ++ [⟨"TOTAL COGS", .num (total_cogs e), .num (pct (total_cogs e) tr)⟩,
      ⟨"GROSS MARGIN", .num (gross_margin s e include_tips),
        .num (pct (gross_margin s e include_tips) tr)⟩,
      ⟨"", .blank, .blank⟩,
      ⟨"OPERATING EXPENSES", .blank, .blank⟩,
      ⟨"  Sales Tax Paid Out", .num (sales_tax_expense s),
        .num (pct (sales_tax_expense s) tr)⟩,
      ⟨"  Processing Fees", .num (processing_fees s),
        .num (pct (processing_fees s) tr)⟩]
  ++ opexCatRows s e include_tips
  ++ [⟨"TOTAL OPEX", .num (total_opex s e), .num (pct (total_opex s e) tr)⟩,
      ⟨"NET PROFIT", .num (net_profit s e include_tips),
        .num (pct (net_profit s e include_tips) tr)⟩]

/-- One rendered line of the report body. -/
inductive RenderedLine
  | headerLine (label : String)
  | rule
  | dataLine (label : String) (amount percent : PnlCell)
deriving DecidableEq

/-- The per-row rendering branch of `build_report_and_tables`:
`if row[0] and not row[1] and not row[2]` emits a label-only line,
`elif not row[0]` a horizontal rule, `else` a data line (the fixed-width
numeric formatting is abstracted to the cell values themselves). -/
def renderRow (r : PnlRow) : RenderedLine :=
  if r.label ≠ "" ∧ r.amount.truthy = false ∧ r.percent.truthy = false then
    .headerLine r.label
  else if r.label = "" then .rule
  else .dataLine r.label r.amount r.percent

/-- Source `build_report_and_tables`: the rendered report body (title and border
chrome elided), the table, and the net profit. -/
def build_report_and_tables (s : List (String × ℚ)) (e : List ExpenseRecord)
    (include_tips : Bool) : List RenderedLine × List PnlRow × ℚ :=
  let table := buildPnlTable s e include_tips
  (table.map renderRow, table, net_profit s e include_tips)

/-- Source `se_tax = (net * 0.9235) * 0.153`. -/
def se_tax (net : ℚ) : ℚ := (net * 0.9235) * 0.153

/-- Source `fed_inc = max(0, net - (se_tax * 0.5)) * (fed_income_rate / 100)`. -/
def fed_inc (net fed_income_rate : ℚ) : ℚ :=
  max 0 (net - se_tax net * 0.5) * (fed_income_rate / 100)

/-- Source `pa_state = net * 0.0307`. -/
def pa_state (net : ℚ) : ℚ := net * 0.0307

/-- Source `pa_local = net * (local_eit_rate / 100)`. -/
def pa_local (net local_eit_rate : ℚ) : ℚ := net * (local_eit_rate / 100)

/-- Source `lst = 52.0 if net > 12000 else 0`. -/
def lst (net : ℚ) : ℚ := if net > 12000 then 52.0 else 0

/-- Source `total_tax = se_tax + fed_inc + pa_state + pa_local + lst`. -/
def total_tax (net fed_income_rate local_eit_rate : ℚ) : ℚ :=
  se_tax net + fed_inc net fed_income_rate + pa_state net
    + pa_local net local_eit_rate + lst net

/-- Source `calc_hanover_tax_text`: the report text and the total-tax scalar.
The wall clock read by `datetime.datetime.now()` enters as the input
`now` and is used only inside the text; numeric formatting is abstracted
to `toString`. -/
def calc_hanover_tax_text (now : String) (net fed_income_rate local_eit_rate : ℚ) :
    String × ℚ :=
  let tt := total_tax net fed_income_rate local_eit_rate
  let txt :=
    "ESTIMATED TAX LIABILITY (HANOVER, PA)\n"
    ++ String.mk (List.replicate 50 '=') ++ "\n"
    ++ "Report Generated: " ++ now ++ "\n"
    ++ "Business Profit:  $" ++ toString net ++ "\n"
    ++ String.mk (List.replicate 50 '-') ++ "\n"
    ++ "Fed SE Tax (15.3%):               $" ++ toString (se_tax net) ++ "\n"
    ++ "Fed Income Tax (" ++ toString fed_income_rate ++ "%):           $"
      ++ toString (fed_inc net fed_income_rate) ++ "\n"
    ++ "PA State Tax (3.07%):             $" ++ toString (pa_state net) ++ "\n"
    ++ "Hanover Local EIT (" ++ toString local_eit_rate ++ "%):          $"
      ++ toString (pa_local net local_eit_rate) ++ "\n"
    ++ "PA Local Services Tax (LST):      $" ++ toString (lst net) ++ "\n"
    ++ String.mk (List.replicate 50 '=') ++ "\n"
    ++ "TOTAL ESTIMATED TAX DUE:          $" ++ toString tt ++ "\n"
    ++ "ESTIMATED TAKE-HOME:              $" ++ toString (net - tt) ++ "\n"
  (txt, tt)

theorem dictFind?_dictInsert (d : List (String × ℚ)) (k' : String) (v : ℚ)
    (k : String) :
    dictFind? (dictInsert d k' v) k = if k' = k then some v else dictFind? d k := by
  induction d with
  | nil => by_cases h : k' = k <;> simp [dictInsert, dictFind?, List.find?, h]
  | cons p rest ih =>
    by_cases h1 : p.1 = k' <;> by_cases h2 : k' = k <;> by_cases h3 : p.1 = k <;>
      simp only [dictInsert, dictFind?, List.find?, h1, h2, h3, if_true, if_false,
        Option.map_some, Option.map_none, ite_true,
        ite_false, decide_eq_true_eq] at ih ⊢ <;>
      simp_all [dictFind?, List.find?]

theorem salesGo_dictFind? (t : List (List Cell)) (d : List (String × ℚ))
    (k : String) :
    dictFind? (salesGo d t) k =
      match lastSaleValue t k with
      | some q => some q
      | none => dictFind? d k := by
  induction t generalizing d with
  | nil => simp [salesGo, lastSaleValue]
  | cons row rest ih =>
    cases hkv : salesRowKV row with
    | none =>
      cases hl : lastSaleValue rest k <;>
        simp [salesGo, lastSaleValue, hkv, hl, ih]
    | some kv =>
      cases hl : lastSaleValue rest k <;>
        by_cases hk : kv.1 = k <;>
          simp [salesGo, lastSaleValue, hkv, hl, hk, ih, dictFind?_dictInsert]

/-- C4: the value a repeated sales-summary label carries.  Dict assignment
`out[k] = float(v)` overwrites, so a key of the parsed summary holds the
numeric value of the **last** successfully parsed row bearing that label
(last-seen wins, not first-seen). -/
theorem c4_sales_summary_last_seen_wins (t : List (List Cell)) (k : String) :
    dictFind? (parse_sales_summary t) k = lastSaleValue t k := by
  have h := salesGo_dictFind? t [] k
  cases hl : lastSaleValue t k <;>
    simp [parse_sales_summary, hl, dictFind?, List.find?] at h ⊢ <;> exact h

/-- C4 counterexample: two successfully parsed rows share the label `"A"`
with values `1` then `2`; the parsed summary carries `2`, the value of the
**last** such row, not `1` as first-seen-wins would require. -/
theorem c4_counterexample :
    dictFind? (parse_sales_summary
      [[Cell.str "A", Cell.num 1], [Cell.str "A", Cell.num 2]]) "A" = some 2
    ∧ (2 : ℚ) ≠ 1 :=
  ⟨rfl, by norm_num⟩

/-- C1: the P&L identities of `build_report_and_tables`.  The returned net
profit is `gross_margin - total_opex`; `gross_margin = total_rev - total_cogs`;
`total_rev` is Net Sales + Tax + Prepayments (+ Gratuity when tips are
included), each term read with default `0.0`; and `total_opex` is the OPEX
ledger sum plus the absolute processing fees plus the collected tax. -/
theorem c1_pnl_identities (s : List (String × ℚ)) (e : List ExpenseRecord)
    (include_tips : Bool) :
    (build_report_and_tables s e include_tips).2.2
        = gross_margin s e include_tips - total_opex s e
    ∧ gross_margin s e include_tips = total_rev s include_tips - total_cogs e
    ∧ total_rev s include_tips
        = dictGet s "Net Sales" 0 + dictGet s "Tax" 0
            + dictGet s "Prepayments For Future Sales" 0
            + (if include_tips then dictGet s "Gratuity" 0 else 0)
    ∧ total_opex s e
        = sumAmounts (opex_df e)
            + |dictGet s "Payment Processing Fees Paid By Business" 0|
            + dictGet s "Tax" 0 :=
  ⟨rfl, rfl, rfl, rfl⟩

/-- C7: the Local Services Tax component is `52.0` exactly when the net
profit strictly exceeds `12000`, else `0`; it is the `lst` summand of the
total-tax scalar; and at the boundary `12000.0` it is `0` while at
`12000.01` it is `52.0`. -/
theorem c7_local_services_tax (now : String) (net fed loc : ℚ) :
    lst net = (if 12000 < net then 52.0 else 0)
    ∧ (calc_hanover_tax_text now net fed loc).2
        = se_tax net + fed_inc net fed + pa_state net + pa_local net loc + lst net
    ∧ lst 12000 = 0
    ∧ lst (12000.01 : ℚ) = 52 := by
  refine ⟨rfl, rfl, ?_, ?_⟩ <;> norm_num [lst]

/-- C10: the total-tax scalar of `calc_hanover_tax_text` is a deterministic
function of `(net, fed rate, local rate)`: the wall-clock input influences
only the report text, never the scalar. -/
theorem c10_total_tax_deterministic (now1 now2 : String) (net fed loc : ℚ) :
    (calc_hanover_tax_text now1 net fed loc).2
      = (calc_hanover_tax_text now2 net fed loc).2 := rfl

/-- C9: in every generated P&L table the "TOTAL REVENUE" line carries the
constant percent `1.0` (not a computed ratio), for every input, including
those with `total_rev = 0`. -/
theorem c9_total_revenue_percent_is_one (s : List (String × ℚ))
    (e : List ExpenseRecord) (include_tips : Bool) :
    ((build_report_and_tables s e include_tips).2.1).find?
        (fun r => r.label = "TOTAL REVENUE")
      = some ⟨"TOTAL REVENUE", .num (total_rev s include_tips), .num 1⟩ := by
  cases include_tips <;> rfl

/-- C6: a candidate data row of `parse_expenses` on which the date/amount
read fails (missing cell, unparseable date, or unparseable amount) is
dropped whole: the parse of the table equals the parse of the remaining
rows under the *same* carried category — no partial record is emitted, the
category is unchanged, and the parse (a total function) never aborts. -/
theorem c6_failed_row_dropped (cc : String) (row : List Cell)
    (rest : List (List Cell))
    (h0 : isTotalRow (rowC0 row) = false)
    (h1 : isCandidate (rowC0 row) = true)
    (h2 : nextIsVendor rest = false)
    (h3 : tryExpenseRow cc row = none) :
    parseExpensesGo (some cc) (row :: rest) = parseExpensesGo (some cc) rest := by
  simp [parseExpensesGo, h0, h1, h2, h3]

theorem c6_witness :
    isTotalRow (rowC0 [Cell.str "Acme", Cell.na, Cell.str "notadate", Cell.str "5.00"]) = false
    ∧ isCandidate (rowC0 [Cell.str "Acme", Cell.na, Cell.str "notadate", Cell.str "5.00"]) = true
    ∧ nextIsVendor [] = false
    ∧ tryExpenseRow "Supplies" [Cell.str "Acme", Cell.na, Cell.str "notadate", Cell.str "5.00"] = none
    ∧ parseExpensesGo (some "Supplies")
        [[Cell.str "Acme", Cell.na, Cell.str "notadate", Cell.str "5.00"]]
      = parseExpensesGo (some "Supplies") [] :=
  ⟨rfl, rfl, rfl, rfl,
    c6_failed_row_dropped "Supplies" _ _ rfl rfl rfl rfl⟩

theorem tryExpenseRow_category (cc : String) (row : List Cell)
    (r : ExpenseRecord) (h : tryExpenseRow cc row = some r) :
    r.Category = cc := by
  unfold tryExpenseRow at h
  repeat' split at h
  all_goals simp_all
  exact congrArg ExpenseRecord.Category h.symm

theorem parseExpensesGo_category_mem (t : List (List Cell)) :
    ∀ (cat : Option String), ∀ r ∈ parseExpensesGo cat t,
      r.Category ∈ headerCats t ∨ cat = some r.Category := by
  induction t with
  | nil => intro cat r hr; simp [parseExpensesGo] at hr
  | cons row rest ih =>
    intro cat r hr
    by_cases hT : isTotalRow (rowC0 row) = true
    · rw [show parseExpensesGo cat (row :: rest) = parseExpensesGo cat rest from by
        simp [parseExpensesGo, hT]] at hr
      rw [show headerCats (row :: rest) = headerCats rest from by
        simp [headerCats, hT]]
      exact ih cat r hr
    · by_cases hC : isCandidate (rowC0 row) = true
      · by_cases hV : nextIsVendor rest = true
        · rw [show parseExpensesGo cat (row :: rest)
              = parseExpensesGo (some (rowC0 row)) rest from by
            simp [parseExpensesGo, hT, hC, hV]] at hr
          rw [show headerCats (row :: rest) = rowC0 row :: headerCats rest from by
            simp [headerCats, hT, hC, hV]]
          rcases ih _ r hr with h | h
          · exact Or.inl (List.mem_cons_of_mem _ h)
          · left
            rw [show rowC0 row = r.Category from Option.some.inj h]
            exact List.mem_cons_self _ _
        · rw [show headerCats (row :: rest) = headerCats rest from by
            simp [headerCats, hT, hC, hV]]
          cases cat with
          | none =>
            rw [show parseExpensesGo none (row :: rest)
                = parseExpensesGo none rest from by
              simp [parseExpensesGo, hT, hC, hV]] at hr
            exact ih none r hr
          | some cc =>
            cases htr : tryExpenseRow cc row with
            | some r0 =>
              rw [show parseExpensesGo (some cc) (row :: rest)
                  = r0 :: parseExpensesGo (some cc) rest from by
                simp [parseExpensesGo, hT, hC, hV, htr]] at hr
              rcases List.mem_cons.mp hr with h | h
              · subst h
                exact Or.inr (congrArg some (tryExpenseRow_category cc row r htr).symm)
              · exact ih _ r h
            | none =>
              rw [show parseExpensesGo (some cc) (row :: rest)
                  = parseExpensesGo (some cc) rest from by
                simp [parseExpensesGo, hT, hC, hV, htr]] at hr
              exact ih _ r hr
      · rw [show parseExpensesGo cat (row :: rest) = parseExpensesGo cat rest from by
          simp [parseExpensesGo, hT, hC]] at hr
        rw [show headerCats (row :: rest) = headerCats rest from by
          simp [headerCats, hT, hC]]
        exact ih cat r hr

/-- C3: every record emitted by `parse_expenses` carries a `Category` that
was established by the header-lookahead rule (a candidate row whose
following row's first cell is `"Vendor"`): its category is a member of the
table's header categories.  Consequently, when the table establishes no
category at all, nothing is emitted — rows seen before any category is
established never produce records. -/
theorem c3_expense_category_invariant (t : List (List Cell)) :
    (∀ r ∈ parse_expenses t, r.Category ∈ headerCats t)
    ∧ (headerCats t = [] → parse_expenses t = []) := by
  have hmain : ∀ r ∈ parse_expenses t, r.Category ∈ headerCats t := by
    intro r hr
    rcases parseExpensesGo_category_mem t none r hr with h | h
    · exact h
    · exact absurd h (by simp)
  refine ⟨hmain, fun hnil => ?_⟩
  rcases heq : parse_expenses t with _ | ⟨r, rest⟩
  · rfl
  · have : r.Category ∈ headerCats t := hmain r (by rw [heq]; exact List.mem_cons_self _ _)
    rw [hnil] at this
    exact absurd this (List.not_mem_nil _)

theorem c3_witness :
    (⟨"Supplies", Cell.str "Acme", 20240105,
        1 * ((10 : ℚ) + 0 / 10 ^ 2)⟩ : ExpenseRecord).Category
      ∈ headerCats [[Cell.str "Supplies"], [Cell.str "Vendor"],
          [Cell.str "Acme", Cell.na, Cell.str "2024-01-05", Cell.str "10.00"]] :=
  (c3_expense_category_invariant
      [[Cell.str "Supplies"], [Cell.str "Vendor"],
       [Cell.str "Acme", Cell.na, Cell.str "2024-01-05", Cell.str "10.00"]]).1
    _ (List.mem_singleton_self _)

theorem buildPnlTable_row_shape (s : List (String × ℚ)) (e : List ExpenseRecord)
    (include_tips : Bool) :
    ∀ row ∈ buildPnlTable s e include_tips,
      row.label = "" ∨ row.amount = PnlCell.blank
      ∨ row = ⟨"TOTAL REVENUE", .num (total_rev s include_tips), .num 1⟩
      ∨ ∃ x, row.amount = .num x
          ∧ row.percent = .num (pct x (total_rev s include_tips)) := by
  intro row hmem
  rw [buildPnlTable] at hmem
  cases include_tips <;>
    simp only [List.mem_append, List.mem_cons, List.not_mem_nil, or_false, false_or,
      or_assoc, cogsCatRows, opexCatRows, List.mem_flatMap, List.mem_map,
      List.mem_ite_nil_right, if_true, if_false, Bool.false_eq_true, ite_true,
      ite_false] at hmem
  · rcases hmem with rfl | rfl | rfl | rfl | rfl | rfl | rfl
      | ⟨cat, hcat, hgt, rfl⟩ | rfl | rfl | rfl | rfl | rfl | rfl
      | ⟨p, hp, rfl⟩ | rfl | rfl <;>
    first
      | exact Or.inl rfl
      | exact Or.inr (Or.inl rfl)
      | exact Or.inr (Or.inr (Or.inl rfl))
      | exact Or.inr (Or.inr (Or.inr ⟨_, rfl, rfl⟩))
  · rcases hmem with rfl | rfl | rfl | rfl | rfl | rfl | rfl | rfl
      | ⟨cat, hcat, hgt, rfl⟩ | rfl | rfl | rfl | rfl | rfl | rfl
      | ⟨p, hp, rfl⟩ | rfl | rfl <;>
    first
      | exact Or.inl rfl
      | exact Or.inr (Or.inl rfl)
      | exact Or.inr (Or.inr (Or.inl rfl))
      | exact Or.inr (Or.inr (Or.inr ⟨_, rfl, rfl⟩))

/-- C2 (amended): in every generated table, every row other than the
"TOTAL REVENUE" line (whose percent is the constant `1.0`, see C9) with a
non-empty label and a numeric amount `a` has
`percent = a / total_rev` when `total_rev ≠ 0` and `percent = 0` when
`total_rev = 0`; the guarded computation is a total function, so no
division-by-zero error or NaN can arise. -/
theorem c2_percent_is_amount_over_revenue (s : List (String × ℚ))
    (e : List ExpenseRecord) (include_tips : Bool) (row : PnlRow) (a : ℚ)
    (hmem : row ∈ (build_report_and_tables s e include_tips).2.1)
    (hlabel : row.label ≠ "")
    (hnottot : row.label ≠ "TOTAL REVENUE")
    (ha : row.amount = .num a) :
    row.percent = .num (if total_rev s include_tips = 0 then 0
                        else a / total_rev s include_tips) := by
  rcases buildPnlTable_row_shape s e include_tips row hmem with h | h | h | ⟨x, hx, hp⟩
  · exact absurd h hlabel
  · rw [h] at ha; exact absurd ha (by simp)
  · rw [h] at hnottot; exact absurd rfl hnottot
  · rw [hx] at ha
    obtain rfl : x = a := by injection ha
    rw [hp]
    rfl

/-- C5 (amended): the report body is the row-wise rendering of the table;
a row renders as a separator rule exactly when its label is empty, as a
label-only section header exactly when its label is non-empty and its
amount and percent cells are both Python-falsy (empty **or zero**), and as
a data row exactly when its label is non-empty and its amount or percent
is a non-zero number.  The Sales Tax Paid Out and Processing Fees lines
are always present in the table, whatever their magnitude. -/
theorem c5_render_rules (s : List (String × ℚ)) (e : List ExpenseRecord)
    (include_tips : Bool) :
    (build_report_and_tables s e include_tips).1
        = (buildPnlTable s e include_tips).map renderRow
    ∧ (∀ r : PnlRow,
        (renderRow r = .rule ↔ r.label = "")
        ∧ (renderRow r = .headerLine r.label
            ↔ r.label ≠ "" ∧ r.amount.truthy = false ∧ r.percent.truthy = false)
        ∧ (renderRow r = .dataLine r.label r.amount r.percent
            ↔ r.label ≠ "" ∧ (r.amount.truthy = true ∨ r.percent.truthy = true)))
    ∧ (⟨"  Sales Tax Paid Out", .num (sales_tax_expense s),
          .num (pct (sales_tax_expense s) (total_rev s include_tips))⟩ : PnlRow)
        ∈ (build_report_and_tables s e include_tips).2.1
    ∧ (⟨"  Processing Fees", .num (processing_fees s),
          .num (pct (processing_fees s) (total_rev s include_tips))⟩ : PnlRow)
        ∈ (build_report_and_tables s e include_tips).2.1 := by
  refine ⟨rfl, ?_, ?_, ?_⟩
  · intro r
    unfold renderRow
    by_cases h1 : r.label = "" <;>
      by_cases h2 : r.amount.truthy <;>
        by_cases h3 : r.percent.truthy <;>
          simp [h1, h2, h3]
  · show _ ∈ buildPnlTable s e include_tips
    rw [buildPnlTable]
    simp
  · show _ ∈ buildPnlTable s e include_tips
    rw [buildPnlTable]
    simp

theorem c8_sorted_aux (e : List ExpenseRecord) :
    List.Chain' (fun a b : String × ℚ => b.2 ≤ a.2) (opexCatTotals e) := by
  haveI : IsTotal (String × ℚ) (fun a b => b.2 ≤ a.2) :=
    ⟨fun a b => le_total b.2 a.2⟩
  haveI : IsTrans (String × ℚ) (fun a b => b.2 ≤ a.2) :=
    ⟨fun a b c hab hbc => le_trans hbc hab⟩
  exact (List.sorted_insertionSort _ _).chain'

/-- C8: the OPEX per-category lines of every generated table are sorted by
amount in descending order (each adjacent pair is non-increasing), and they
sit exactly between the fixed Processing Fees line and the TOTAL OPEX
line. -/
theorem c8_opex_lines_sorted_descending (s : List (String × ℚ))
    (e : List ExpenseRecord) (include_tips : Bool) :
    List.Chain' (fun p q : PnlRow => PnlCell.qval q.amount ≤ PnlCell.qval p.amount)
      (opexCatRows s e include_tips)
    ∧ ∃ pre suf, buildPnlTable s e include_tips
          = pre ++ opexCatRows s e include_tips ++ suf
        ∧ pre.getLast? = some ⟨"  Processing Fees", .num (processing_fees s),
            .num (pct (processing_fees s) (total_rev s include_tips))⟩
        ∧ suf.head? = some ⟨"TOTAL OPEX", .num (total_opex s e),
            .num (pct (total_opex s e) (total_rev s include_tips))⟩ := by
  constructor
  · rw [opexCatRows, List.chain'_map]
    exact c8_sorted_aux e
  · refine ⟨([⟨"REVENUE", .blank, .blank⟩,
       ⟨"  Net Sales", .num (net_sales s), .num (pct (net_sales s) (total_rev s include_tips))⟩,
       ⟨"  Tax Collected", .num (tax_collected s), .num (pct (tax_collected s) (total_rev s include_tips))⟩,
       ⟨"  Prepayments", .num (prepayments s), .num (pct (prepayments s) (total_rev s include_tips))⟩]
      ++ (if include_tips then
            [⟨"  Tips/Gratuity", .num (gratuity s), .num (pct (gratuity s) (total_rev s include_tips))⟩]
          else [])
      ++ [⟨"TOTAL REVENUE", .num (total_rev s include_tips), .num 1⟩,
          ⟨"", .blank, .blank⟩,
          ⟨"COGS", .blank, .blank⟩]
      ++ cogsCatRows s e include_tips
      ++ [⟨"TOTAL COGS", .num (total_cogs e), .num (pct (total_cogs e) (total_rev s include_tips))⟩,
          ⟨"GROSS MARGIN", .num (gross_margin s e include_tips),
            .num (pct (gross_margin s e include_tips) (total_rev s include_tips))⟩,
          ⟨"", .blank, .blank⟩,
          ⟨"OPERATING EXPENSES", .blank, .blank⟩,
          ⟨"  Sales Tax Paid Out", .num (sales_tax_expense s),
            .num (pct (sales_tax_expense s) (total_rev s include_tips))⟩,
          ⟨"  Processing Fees", .num (processing_fees s),
            .num (pct (processing_fees s) (total_rev s include_tips))⟩]),
      ([⟨"TOTAL OPEX", .num (total_opex s e), .num (pct (total_opex s e) (total_rev s include_tips))⟩,
        ⟨"NET PROFIT", .num (net_profit s e include_tips),
          .num (pct (net_profit s e include_tips) (total_rev s include_tips))⟩]),
      ?_, ?_, rfl⟩
    · rw [buildPnlTable]
    · rw [List.getLast?_append, List.getLast?_append]
      rfl

/-- C2 counterexample: with empty inputs `total_rev = 0`, and the table
contains the "TOTAL REVENUE" row with non-empty label, numeric amount `0`
and percent `1`, not `0` as the claim requires of every such row when
`total_rev = 0`. -/
theorem c2_counterexample :
    total_rev [] false = 0
    ∧ (⟨"TOTAL REVENUE", .num 0, .num 1⟩ : PnlRow)
        ∈ (build_report_and_tables [] [] false).2.1
    ∧ (1 : ℚ) ≠ 0 := by
  have ht : total_rev [] false = 0 := by
    norm_num [total_rev, net_sales, tax_collected, prepayments, dictGet,
      dictFind?, List.find?]
  refine ⟨ht, ?_, by norm_num⟩
  have hrow : (⟨"TOTAL REVENUE", .num 0, .num 1⟩ : PnlRow)
      = ⟨"TOTAL REVENUE", .num (total_rev [] false), .num 1⟩ := by rw [ht]
  rw [hrow]
  show _ ∈ buildPnlTable [] [] false
  rw [buildPnlTable]
  simp

theorem c2_witness :
    (⟨"  Net Sales", .num 50, .num 1⟩ : PnlRow)
        ∈ (build_report_and_tables [("Net Sales", 50)] [] false).2.1
    ∧ ("  Net Sales" : String) ≠ ""
    ∧ ("  Net Sales" : String) ≠ "TOTAL REVENUE"
    ∧ (⟨"  Net Sales", .num 50, .num 1⟩ : PnlRow).amount = .num 50
    ∧ (⟨"  Net Sales", .num 50, .num 1⟩ : PnlRow).percent
        = .num (if total_rev [("Net Sales", 50)] false = 0 then 0
                else 50 / total_rev [("Net Sales", 50)] false) := by
  have h1 : net_sales [("Net Sales", 50)] = 50 := rfl
  have h2 : tax_collected [("Net Sales", 50)] = 0 := rfl
  have h3 : prepayments [("Net Sales", 50)] = 0 := rfl
  have ht : total_rev [("Net Sales", 50)] false = 50 := by
    norm_num [total_rev, h1, h2, h3]
  have hrow : (⟨"  Net Sales", .num 50, .num 1⟩ : PnlRow)
      = ⟨"  Net Sales", .num (net_sales [("Net Sales", 50)]),
          .num (pct (net_sales [("Net Sales", 50)])
            (total_rev [("Net Sales", 50)] false))⟩ := by
    rw [h1, ht]
    norm_num [pct]
  have hmem : (⟨"  Net Sales", .num 50, .num 1⟩ : PnlRow)
      ∈ (build_report_and_tables [("Net Sales", 50)] [] false).2.1 := by
    rw [hrow]
    show _ ∈ buildPnlTable [("Net Sales", 50)] [] false
    rw [buildPnlTable]
    simp
  exact ⟨hmem, by decide, by decide, rfl,
    c2_percent_is_amount_over_revenue [("Net Sales", 50)] [] false
      ⟨"  Net Sales", .num 50, .num 1⟩ 50 hmem (by decide) (by decide) rfl⟩

/-- C5 counterexample: with empty inputs the always-emitted
"Sales Tax Paid Out" line has amount `0.0` and percent `0`; although its
label is non-empty and its amount numeric, Python truthiness makes the
renderer emit a label-only section-header line for it, not a data row. -/
theorem c5_counterexample :
    (⟨"  Sales Tax Paid Out", .num 0, .num 0⟩ : PnlRow)
        ∈ (build_report_and_tables [] [] false).2.1
    ∧ RenderedLine.headerLine "  Sales Tax Paid Out"
        ∈ (build_report_and_tables [] [] false).1
    ∧ renderRow ⟨"  Sales Tax Paid Out", .num 0, .num 0⟩
        = .headerLine "  Sales Tax Paid Out"
    ∧ RenderedLine.headerLine "  Sales Tax Paid Out"
        ≠ RenderedLine.dataLine "  Sales Tax Paid Out" (.num 0) (.num 0) := by
  have hst : sales_tax_expense [] = 0 := rfl
  have ht : total_rev [] false = 0 := by
    norm_num [total_rev, net_sales, tax_collected, prepayments, dictGet,
      dictFind?, List.find?]
  have hrow : (⟨"  Sales Tax Paid Out", .num 0, .num 0⟩ : PnlRow)
      = ⟨"  Sales Tax Paid Out", .num (sales_tax_expense []),
          .num (pct (sales_tax_expense []) (total_rev [] false))⟩ := by
    rw [hst, ht]
    norm_num [pct]
  have hmem : (⟨"  Sales Tax Paid Out", .num 0, .num 0⟩ : PnlRow)
      ∈ (build_report_and_tables [] [] false).2.1 := by
    rw [hrow]
    show _ ∈ buildPnlTable [] [] false
    rw [buildPnlTable]
    simp
  have hrender : renderRow ⟨"  Sales Tax Paid Out", .num 0, .num 0⟩
      = .headerLine "  Sales Tax Paid Out" := by decide
  exact ⟨hmem, List.mem_map.mpr ⟨_, hmem, hrender⟩, hrender, by simp⟩
